import Mathlib

/-!
Shallow embedding of the Resume Parser backend (src/main.py, FastAPI).

The program is a linear pipeline: PDF upload validation, PyPDF2 text
extraction, an LLM backend call returning a JSON object, pydantic model
construction (ResumeData / ArchivedResume), JSON-file persistence keyed by a
generated id, plus listing (GET /analyses) and detail retrieval
(GET /analyses/id) endpoints.

External collaborators (PyPDF2, the Ollama backend, the filesystem) are
modelled as oracle inputs: the PDF decoder yields either a failure or a list
of per-page extraction results, the backend yields either a failure or a
JSON object, and the storage directory is an association list from file base
name (the record id) to file content.
-/

/-- JSON values, as produced by Python json.load and consumed by json.dump. -/
inductive JsonVal where
  | null
  | bool (b : Bool)
  | num (n : Int)
  | str (s : String)
  | arr (xs : List JsonVal)
  | obj (fields : List (String × JsonVal))

/-- A Python dict with string keys, as decoded from a JSON object.
Lookups take the first matching key; dicts built by the program have
distinct keys. -/
abbrev PyDict := List (String × JsonVal)

/-- Content of one file in the storage directory: either a parsable JSON
object (every file this system writes is one), or a file on which json.load
raises (JSONDecodeError) or that cannot be read (IOError). -/
inductive FileContent where
  | corrupt
  | good (d : PyDict)

/-- The storage directory STORAGE_DIR: file base name (= record id) to
content, in filesystem enumeration order. -/
abbrev Store := List (String × FileContent)

/-- pydantic model Experience (src/main.py): four optional strings, each
defaulting to the sentinel "Not specified". -/
structure Experience where
  title : Option String := some "Not specified"
  company : Option String := some "Not specified"
  date : Option String := some "Not specified"
  description : Option String := some "Not specified"
deriving DecidableEq

/-- pydantic model Education (src/main.py). -/
structure Education where
  degree : Option String := some "Not specified"
  institution : Option String := some "Not specified"
  date : Option String := some "Not specified"
deriving DecidableEq

/-- pydantic model ResumeData (src/main.py): scalar fields optional with the
sentinel default, list fields defaulting to empty. -/
structure ResumeData where
  name : Option String := some "Not specified"
  email : Option String := some "Not specified"
  phone : Option String := some "Not specified"
  summary : Option String := some "Not specified"
  experience : List Experience := []
  education : List Education := []
  skills : List String := []
deriving DecidableEq

/-- pydantic model ArchivedResume (src/main.py): ResumeData plus required
metadata id, filename, timestamp. -/
structure ArchivedResume extends ResumeData where
  id : String
  filename : String
  timestamp : String
deriving DecidableEq

/-- pydantic validation of an Optional[str] field value: an explicit JSON
null yields None, a JSON string yields that string, anything else is a
validation error. -/
def parseOptStr : JsonVal → Option (Option String)
  | .null => some none
  | .str s => some (some s)
  | _ => none

/-- pydantic validation of a required str field value. -/
def parseStr : JsonVal → Option String
  | .str s => some s
  | _ => none

/-- Field access during pydantic model construction for an Optional[str]
field with default "Not specified": an absent key takes the default, a
present key is validated. -/
def optStrField (d : PyDict) (k : String) : Option (Option String) :=
  match List.lookup k d with
  | none => some (some "Not specified")
  | some v => parseOptStr v

/-- Field access for a required str field (id, filename, timestamp): an
absent key is a validation error. -/
def strField (d : PyDict) (k : String) : Option String :=
  match List.lookup k d with
  | none => none
  | some v => parseStr v

/-- Validate every element of a JSON array with the given element
validator; any element failure fails the whole field. -/
def listOf (p : JsonVal → Option α) : List JsonVal → Option (List α)
  | [] => some []
  | v :: vs =>
    (p v).bind fun x =>
    (listOf p vs).bind fun xs =>
    some (x :: xs)

/-- pydantic validation of a List[...] field value: must be a JSON array of
valid elements. -/
def parseListWith (p : JsonVal → Option α) : JsonVal → Option (List α)
  | .arr xs => listOf p xs
  | _ => none

/-- Field access for a List[...] field with default []: an absent key takes
the empty list. -/
def listField (p : JsonVal → Option α) (d : PyDict) (k : String) : Option (List α) :=
  match List.lookup k d with
  | none => some []
  | some v => parseListWith p v

/-- pydantic validation of one Experience item: must be a JSON object;
each field absent takes the sentinel default. Extra keys are ignored. -/
def Experience.validate : JsonVal → Option Experience
  | .obj d =>
    (optStrField d "title").bind fun t =>
    (optStrField d "company").bind fun c =>
    (optStrField d "date").bind fun dt =>
    (optStrField d "description").bind fun ds =>
    some { title := t, company := c, date := dt, description := ds }
  | _ => none

/-- pydantic validation of one Education item. -/
def Education.validate : JsonVal → Option Education
  | .obj d =>
    (optStrField d "degree").bind fun dg =>
    (optStrField d "institution").bind fun inst =>
    (optStrField d "date").bind fun dt =>
    some { degree := dg, institution := inst, date := dt }
  | _ => none

/-- pydantic construction ArchivedResume(**kwargs) from a keyword dict:
each declared field is validated if present and defaulted if absent; extra
keys are ignored; any field validation error makes the whole construction
fail (ValidationError). -/
def ArchivedResume.validate (kwargs : PyDict) : Option ArchivedResume :=
  (optStrField kwargs "name").bind fun n =>
  (optStrField kwargs "email").bind fun em =>
  (optStrField kwargs "phone").bind fun ph =>
  (optStrField kwargs "summary").bind fun su =>
  (listField Experience.validate kwargs "experience").bind fun ex =>
  (listField Education.validate kwargs "education").bind fun ed =>
  (listField parseStr kwargs "skills").bind fun sk =>
  (strField kwargs "id").bind fun i =>
  (strField kwargs "filename").bind fun fn =>
  (strField kwargs "timestamp").bind fun ts =>
  some { name := n, email := em, phone := ph, summary := su,
         experience := ex, education := ed, skills := sk,
         id := i, filename := fn, timestamp := ts }

/-- Serialization of an Optional[str] value by model.dict() + json.dump. -/
def optStrJson : Option String → JsonVal
  | none => .null
  | some s => .str s

/-- model.dict() for Experience, as written by json.dump. -/
def Experience.toJson (e : Experience) : JsonVal :=
  .obj [("title", optStrJson e.title), ("company", optStrJson e.company),
        ("date", optStrJson e.date), ("description", optStrJson e.description)]

/-- model.dict() for Education. -/
def Education.toJson (e : Education) : JsonVal :=
  .obj [("degree", optStrJson e.degree), ("institution", optStrJson e.institution),
        ("date", optStrJson e.date)]

/-- new_analysis.dict(): the JSON object persisted to
STORAGE_DIR/id.json, fields in declaration order (inherited ResumeData
fields first, then metadata). -/
def ArchivedResume.toDict (r : ArchivedResume) : PyDict :=
  [("name", optStrJson r.name), ("email", optStrJson r.email),
   ("phone", optStrJson r.phone), ("summary", optStrJson r.summary),
   ("experience", .arr (r.experience.map Experience.toJson)),
   ("education", .arr (r.education.map Education.toJson)),
   ("skills", .arr (r.skills.map JsonVal.str)),
   ("id", .str r.id), ("filename", .str r.filename), ("timestamp", .str r.timestamp)]

/-- Result of PyPDF2.PdfReader on the uploaded bytes: either the reader
raises (invalid PDF / read error), or it yields for each page in order the
result of page.extract_text(), with none when extraction yields nothing. -/
inductive PdfParse where
  | fail
  | ok (pages : List (Option String))

/-- Result of the LangChain chain (prompt, Ollama, JsonOutputParser):
either a backend/parse failure, or a JSON object as a Python dict. -/
inductive BackendOut where
  | fail
  | ok (parsed : PyDict)

/-- The text-extraction loop of parse_resume: text starts empty and each
page appends page.extract_text() or "" in page order, no separator. -/
def extractText (pages : List (Option String)) : String :=
  pages.foldl (fun acc p => acc ++ p.getD "") ""

/-- Python str.isspace-style character test for the whitespace stripped by
str.strip() (ASCII subset; the claims only exercise these). -/
def pyIsSpace (c : Char) : Bool :=
  c == ' ' || c == '\t' || c == '\n' || c == '\r' || c.toNat == 11 || c.toNat == 12

/-- The check `not text.strip()` of parse_resume: true iff every character
is whitespace (equivalently, the stripped text is empty). -/
def isBlank (s : String) : Bool := s.data.all pyIsSpace

/-- The explicit keyword arguments of the ArchivedResume(...) call in
parse_resume: generated uuid, original upload filename, UTC ISO timestamp. -/
def metaKwargs (newId fname ts : String) : PyDict :=
  [("id", .str newId), ("filename", .str fname), ("timestamp", .str ts)]

/-- Whether the backend dict collides with an explicit keyword argument of
the ArchivedResume(...) call; Python then raises TypeError (duplicate
keyword argument) before pydantic validation runs. -/
def hasMetaKey (d : PyDict) : Bool :=
  (List.lookup "id" d).isSome || (List.lookup "filename" d).isSome ||
    (List.lookup "timestamp" d).isSome

/-- Writing STORAGE_DIR/k.json: open(..., "w") truncates/creates, so an
existing file under the same name is replaced. -/
def storeWrite (k : String) (c : FileContent) (s : Store) : Store :=
  (k, c) :: s.filter (fun e => e.1 != k)

/-- Outcome of one POST /parse-resume request: HTTP status, response body
(the created record on success), and the storage directory afterwards. -/
structure PRResult where
  status : Nat
  body : Option ArchivedResume
  store : Store

/-- Outcome of persisting the record with open(save_path, "w") followed by
json.dump. open itself can raise (no file is created); or open succeeds,
truncating/creating the file, and then json.dump or the flush on close
raises, leaving a partial or empty file under the new id (a strict prefix
of the dump, or nothing, is never valid JSON, so that file is unparsable);
or the whole write succeeds. Either exception is caught by the generic
handler of parse_resume. -/
inductive WriteOutcome where
  | openFail
  | dumpFail
  | ok

/-- POST /parse-resume (src/main.py parse_resume). Oracle inputs: the
upload's content type and filename, the PyPDF2 outcome, the backend
outcome, the generated uuid, the current timestamp, and the outcome of the
file write. Every raised HTTPException/Exception maps to its status; a
write reached but failed after open leaves the truncated partial file in
the store. -/
def parse_resume (contentType fname : String) (pdf : PdfParse) (backend : BackendOut)
    (newId ts : String) (write : WriteOutcome) (store : Store) : PRResult :=
  if contentType != "application/pdf" then ⟨400, none, store⟩
  else
    match pdf with
    | .fail => ⟨500, none, store⟩
    | .ok pages =>
      let text := extractText pages
      if isBlank text then ⟨400, none, store⟩
      else
        match backend with
        | .fail => ⟨500, none, store⟩
        | .ok parsed =>
          if hasMetaKey parsed then ⟨500, none, store⟩
          else
            match ArchivedResume.validate (metaKwargs newId fname ts ++ parsed) with
            | none => ⟨500, none, store⟩
            | some r =>
              match write with
              | .openFail => ⟨500, none, store⟩
              | .dumpFail => ⟨500, none, storeWrite newId .corrupt store⟩
              | .ok => ⟨200, some r, storeWrite newId (.good r.toDict) store⟩

/-- Outcome of GET /analyses/id: 404, 500, or 200 with the stored JSON
object returned verbatim (json.load of the file). -/
inductive GetResult where
  | notFound
  | internalError
  | ok (d : PyDict)

/-- GET /analyses/id (src/main.py get_analysis_detail): look up the file
named by the id; absent gives 404, unreadable/unparsable gives 500,
otherwise the parsed content is returned verbatim. -/
def get_analysis_detail (analysis_id : String) (store : Store) : GetResult :=
  match List.lookup analysis_id store with
  | none => .notFound
  | some .corrupt => .internalError
  | some (.good d) => .ok d

/-- dict.get(k): the value if present, Python None (JSON null) otherwise. -/
def dictGet (d : PyDict) (k : String) : JsonVal :=
  (List.lookup k d).getD .null

/-- One history entry as built by get_analyses_history: the raw values of
dict.get on the loaded JSON object (validated against the response model
only afterwards by the framework). -/
structure AnalysisStub where
  id : JsonVal
  filename : JsonVal
  timestamp : JsonVal

/-- The dict appended to history for one parsable file. -/
def stubOfDict (d : PyDict) : AnalysisStub :=
  ⟨dictGet d "id", dictGet d "filename", dictGet d "timestamp"⟩

/-- The history list before sorting: parsable files in enumeration order,
files raising JSONDecodeError/KeyError/IOError silently skipped. -/
def rawStubs (store : Store) : List AnalysisStub :=
  store.filterMap fun e =>
    match e.2 with
    | .corrupt => none
    | .good d => some (stubOfDict d)

/-- Lexicographic code-point comparison of character lists, the order
Python uses to compare str sort keys. -/
def lexLe : List Char → List Char → Bool
  | [], _ => true
  | _ :: _, [] => false
  | a :: as, b :: bs =>
    if a.toNat < b.toNat then true
    else if b.toNat < a.toNat then false
    else lexLe as bs

/-- Python string less-or-equal. -/
def strLe (a b : String) : Bool := lexLe a.data b.data

/-- Python string strict less-than. -/
def strLt (a b : String) : Bool := strLe a b && !strLe b a

/-- The sort key x["timestamp"] as a string. Records written by this
system always store a string there; on any other JSON value Python's sort
would raise an uncaught TypeError, a case no claim exercises. -/
def tsKey : JsonVal → String
  | .str s => s
  | _ => ""

/-- The comparison realized by history.sort(key=..., reverse=True):
stable, timestamp descending. -/
def stubDescLe (a b : AnalysisStub) : Bool :=
  strLe (tsKey b.timestamp) (tsKey a.timestamp)

/-- GET /analyses (src/main.py get_analyses_history): stubs of the
parsable files, sorted by timestamp, most recent first (Python's sort is
stable mergesort). -/
def get_analyses_history (store : Store) : List AnalysisStub :=
  (rawStubs store).mergeSort stubDescLe

/-! ### Helper lemmas -/

theorem parseOptStr_optStrJson (x : Option String) : parseOptStr (optStrJson x) = some x := by
  cases x <;> rfl

theorem experience_validate_roundtrip (e : Experience) :
    Experience.validate e.toJson = some e := by
  obtain ⟨t, c, d, s⟩ := e
  cases t <;> cases c <;> cases d <;> cases s <;> rfl

theorem education_validate_roundtrip (e : Education) :
    Education.validate e.toJson = some e := by
  obtain ⟨dg, inst, d⟩ := e
  cases dg <;> cases inst <;> cases d <;> rfl

theorem listOf_map (p : JsonVal → Option α) (f : α → JsonVal)
    (h : ∀ x, p (f x) = some x) (xs : List α) : listOf p (xs.map f) = some xs := by
  induction xs with
  | nil => rfl
  | cons x xs ih => simp [listOf, h x, ih]

theorem ArchivedResume.validate_toDict (r : ArchivedResume) :
    ArchivedResume.validate r.toDict = some r := by
  obtain ⟨⟨n, em, ph, su, ex, ed, sk⟩, i, fn, ts⟩ := r
  simp [ArchivedResume.toDict, ArchivedResume.validate, optStrField, strField, listField,
        parseListWith, parseStr, List.lookup, parseOptStr_optStrJson,
        listOf_map Experience.validate Experience.toJson experience_validate_roundtrip,
        listOf_map Education.validate Education.toJson education_validate_roundtrip,
        listOf_map parseStr JsonVal.str (fun s => rfl)]

theorem lexLe_refl (as : List Char) : lexLe as as = true := by
  induction as with
  | nil => rfl
  | cons a as ih => simp [lexLe, ih]

theorem lexLe_total (as : List Char) : ∀ bs, (lexLe as bs || lexLe bs as) = true := by
  induction as with
  | nil => intro bs; rfl
  | cons a as ih =>
    intro bs
    cases bs with
    | nil => rfl
    | cons b bs =>
      simp only [lexLe]
      rcases Nat.lt_trichotomy a.toNat b.toNat with h | h | h
      · simp [h]
      · simp [h, Nat.lt_irrefl, ih bs]
      · simp [h, Nat.lt_asymm h]

theorem lexLe_trans (as : List Char) :
    ∀ bs cs, lexLe as bs = true → lexLe bs cs = true → lexLe as cs = true := by
  induction as with
  | nil => intro bs cs _ _; rfl
  | cons a as ih =>
    intro bs cs h1 h2
    cases bs with
    | nil => simp [lexLe] at h1
    | cons b bs =>
      cases cs with
      | nil => simp [lexLe] at h2
      | cons c cs =>
        simp only [lexLe] at h1 h2 ⊢
        rcases Nat.lt_trichotomy a.toNat b.toNat with hab | hab | hab
        · rcases Nat.lt_trichotomy b.toNat c.toNat with hbc | hbc | hbc
          · rw [if_pos (by omega)]
          · rw [if_pos (by omega)]
          · rw [if_neg (by omega), if_pos (by omega)] at h2
            simp at h2
        · rcases Nat.lt_trichotomy b.toNat c.toNat with hbc | hbc | hbc
          · rw [if_pos (by omega)]
          · rw [if_neg (by omega), if_neg (by omega)] at h1
            rw [if_neg (by omega), if_neg (by omega)] at h2
            rw [if_neg (by omega), if_neg (by omega)]
            exact ih bs cs h1 h2
          · rw [if_neg (by omega), if_pos (by omega)] at h2
            simp at h2
        · rw [if_neg (by omega), if_pos (by omega)] at h1
          simp at h1

theorem strLe_refl (s : String) : strLe s s = true := lexLe_refl s.data

theorem stubDescLe_trans (a b c : AnalysisStub) :
    stubDescLe a b = true → stubDescLe b c = true → stubDescLe a c = true := by
  intro h1 h2
  exact lexLe_trans _ _ _ h2 h1

theorem stubDescLe_total (a b : AnalysisStub) :
    (stubDescLe a b || stubDescLe b a) = true :=
  lexLe_total _ _

theorem lookup_eq_none_of_absent (k : String) (store : Store)
    (h : ∀ e ∈ store, e.1 ≠ k) : List.lookup k store = none := by
  induction store with
  | nil => rfl
  | cons e rest ih =>
    obtain ⟨k1, c1⟩ := e
    have hk : k1 ≠ k := h (k1, c1) (List.mem_cons_self _ _)
    have hbeq : (k == k1) = false := beq_eq_false_iff_ne.mpr (by simpa [eq_comm] using hk)
    simp only [List.lookup, hbeq]
    exact ih fun e he => h e (List.mem_cons_of_mem _ he)

theorem ArchivedResume.validate_fields (kwargs : PyDict) (r : ArchivedResume)
    (h : ArchivedResume.validate kwargs = some r) :
    optStrField kwargs "name" = some r.name ∧ strField kwargs "id" = some r.id := by
  simp only [ArchivedResume.validate, Option.bind_eq_some, Option.some.injEq] at h
  obtain ⟨n, hn, em, hem, ph, hph, su, hsu, ex, hex, ed, hed, sk, hsk, i, hi, fn, hfn,
    ts, hts, hr⟩ := h
  subst hr
  exact ⟨hn, hi⟩

theorem parse_resume_success (ct fname : String) (pdf : PdfParse) (backend : BackendOut)
    (newId ts : String) (write : WriteOutcome) (store : Store) (r : ArchivedResume)
    (h : (parse_resume ct fname pdf backend newId ts write store).body = some r) :
    ∃ parsed, backend = .ok parsed ∧ hasMetaKey parsed = false ∧
      ArchivedResume.validate (metaKwargs newId fname ts ++ parsed) = some r ∧
      parse_resume ct fname pdf backend newId ts write store =
        ⟨200, some r, storeWrite newId (.good r.toDict) store⟩ := by
  by_cases hct : (ct != "application/pdf") = true
  · simp [parse_resume, hct] at h
  · cases pdf with
    | fail => simp [parse_resume, hct] at h
    | ok pages =>
      by_cases hb : isBlank (extractText pages) = true
      · simp [parse_resume, hct, hb] at h
      · cases backend with
        | fail => simp [parse_resume, hct, hb] at h
        | ok parsed =>
          by_cases hm : hasMetaKey parsed = true
          · simp [parse_resume, hct, hb, hm] at h
          · rcases hv : ArchivedResume.validate (metaKwargs newId fname ts ++ parsed)
              with _ | r0
            · simp [parse_resume, hct, hb, hm, hv] at h
            · cases write with
              | openFail => simp [parse_resume, hct, hb, hm, hv] at h
              | dumpFail => simp [parse_resume, hct, hb, hm, hv] at h
              | ok =>
                simp [parse_resume, hct, hb, hm, hv] at h
                subst h
                exact ⟨parsed, rfl, by simpa using hm, hv,
                  by simp [parse_resume, hct, hb, hm, hv]⟩

/-- Claim C1: for a valid PDF upload with extractable text and a backend
returning a well-formed mapping (i.e. whenever POST /parse-resume returns a
created record), GET /analyses/id for the assigned identifier returns the
persisted JSON of exactly that record, and reading the persisted JSON back
through model validation yields the record field-for-field. -/
theorem c1_create_then_get (fname : String) (pdf : PdfParse) (backend : BackendOut)
    (newId ts : String) (store : Store) (r : ArchivedResume)
    (h : (parse_resume "application/pdf" fname pdf backend newId ts
            WriteOutcome.ok store).body = some r) :
    get_analysis_detail r.id
        (parse_resume "application/pdf" fname pdf backend newId ts WriteOutcome.ok store).store
      = GetResult.ok r.toDict ∧
    ArchivedResume.validate r.toDict = some r := by
  obtain ⟨parsed, hbk, hm, hv, heq⟩ :=
    parse_resume_success "application/pdf" fname pdf backend newId ts WriteOutcome.ok store r h
  have hid : r.id = newId := by
    have h1 := (ArchivedResume.validate_fields _ _ hv).2
    have h2 : strField (metaKwargs newId fname ts ++ parsed) "id" = some newId := rfl
    rw [h1] at h2
    exact Option.some.inj h2
  refine ⟨?_, ArchivedResume.validate_toDict r⟩
  rw [heq]
  show get_analysis_detail r.id (storeWrite newId (.good r.toDict) store) = GetResult.ok r.toDict
  rw [hid]
  simp [get_analysis_detail, storeWrite, List.lookup]

/-- Concrete record produced by the create run in the C1 witness. -/
def c1wRecord : ArchivedResume :=
  { name := some "Ada", email := some "Not specified", phone := some "Not specified",
    summary := some "Not specified", experience := [], education := [], skills := [],
    id := "id-1", filename := "cv.pdf", timestamp := "2024-01-02T03:04:05+00:00" }

theorem c1_create_then_get_witness :
    get_analysis_detail c1wRecord.id
        (parse_resume "application/pdf" "cv.pdf" (PdfParse.ok [some "Ada"])
          (BackendOut.ok [("name", JsonVal.str "Ada")])
          "id-1" "2024-01-02T03:04:05+00:00" WriteOutcome.ok []).store
      = GetResult.ok c1wRecord.toDict ∧
    ArchivedResume.validate c1wRecord.toDict = some c1wRecord :=
  c1_create_then_get "cv.pdf" (PdfParse.ok [some "Ada"])
    (BackendOut.ok [("name", JsonVal.str "Ada")])
    "id-1" "2024-01-02T03:04:05+00:00" [] c1wRecord rfl

/-- Claim C2: an upload whose content type is not application/pdf is
rejected with 400 and the storage state is unchanged, and a PDF whose
extracted text is empty or whitespace-only is rejected with 400 and the
storage state is unchanged; in both cases no record is persisted and no
body is returned. -/
theorem c2_reject_400 (ct fname : String) (pdf : PdfParse) (backend : BackendOut)
    (newId ts : String) (write : WriteOutcome) (store : Store) :
    (ct ≠ "application/pdf" →
      parse_resume ct fname pdf backend newId ts write store = ⟨400, none, store⟩) ∧
    (∀ pages, pdf = PdfParse.ok pages → isBlank (extractText pages) = true →
      parse_resume "application/pdf" fname pdf backend newId ts write store =
        ⟨400, none, store⟩) := by
  constructor
  · intro hct
    simp [parse_resume, bne_iff_ne, hct]
  · intro pages hp hb
    subst hp
    simp [parse_resume, hb]

theorem c2_reject_400_witness :
    parse_resume "text/plain" "cv.pdf" (PdfParse.ok [some "hello"]) BackendOut.fail
      "id-2" "t2" WriteOutcome.ok [] = ⟨400, none, []⟩ ∧
    parse_resume "application/pdf" "cv.pdf" (PdfParse.ok [some " ", none]) BackendOut.fail
      "id-2" "t2" WriteOutcome.ok [] = ⟨400, none, []⟩ :=
  ⟨(c2_reject_400 "text/plain" "cv.pdf" (PdfParse.ok [some "hello"]) BackendOut.fail
      "id-2" "t2" WriteOutcome.ok []).1 (by decide),
   (c2_reject_400 "application/pdf" "cv.pdf" (PdfParse.ok [some " ", none]) BackendOut.fail
      "id-2" "t2" WriteOutcome.ok []).2 [some " ", none] rfl rfl⟩

/-- Claim C3: GET /analyses/id is a three-way case split on the stored
file named by the identifier: absent file gives 404, present but
unreadable/unparsable file gives 500, otherwise the stored JSON object is
returned verbatim; an identifier named by no stored file gives 404
deterministically. -/
theorem c3_get_case_split (analysis_id : String) (store : Store) :
    (List.lookup analysis_id store = none →
      get_analysis_detail analysis_id store = GetResult.notFound) ∧
    (List.lookup analysis_id store = some FileContent.corrupt →
      get_analysis_detail analysis_id store = GetResult.internalError) ∧
    (∀ d, List.lookup analysis_id store = some (FileContent.good d) →
      get_analysis_detail analysis_id store = GetResult.ok d) ∧
    ((∀ e ∈ store, e.1 ≠ analysis_id) →
      get_analysis_detail analysis_id store = GetResult.notFound) := by
  refine ⟨?_, ?_, ?_, ?_⟩
  · intro h; simp [get_analysis_detail, h]
  · intro h; simp [get_analysis_detail, h]
  · intro d h; simp [get_analysis_detail, h]
  · intro h
    simp [get_analysis_detail, lookup_eq_none_of_absent analysis_id store h]

/-- Concrete two-file storage for the C3 witness. -/
def c3wStore : Store :=
  [("a", FileContent.good [("id", JsonVal.str "a")]), ("b", FileContent.corrupt)]

theorem c3_get_case_split_witness :
    get_analysis_detail "zzz" c3wStore = GetResult.notFound ∧
    get_analysis_detail "b" c3wStore = GetResult.internalError ∧
    get_analysis_detail "a" c3wStore = GetResult.ok [("id", JsonVal.str "a")] ∧
    get_analysis_detail "nope" c3wStore = GetResult.notFound :=
  ⟨(c3_get_case_split "zzz" c3wStore).1 rfl,
   (c3_get_case_split "b" c3wStore).2.1 rfl,
   (c3_get_case_split "a" c3wStore).2.2.1 [("id", JsonVal.str "a")] rfl,
   (c3_get_case_split "nope" c3wStore).2.2.2 (by
      intro e he
      rcases List.mem_cons.mp he with h | h
      · subst h; decide
      · rcases List.mem_cons.mp h with h2 | h2
        · subst h2; decide
        · simp at h2)⟩

/-- Counterexample to claim C5 as stated: when json.dump fails after
open(save_path, "w") has already truncated/created the file, the request
fails (500, no body), yet the storage state is changed: a partial,
unparsable file now sits under the fresh identifier, observable as a 500
(not a 404) from a later GET /analyses/id. So it is not the case that
nothing is persisted on every failure. -/
theorem c5_atomicity_counterexample :
    (parse_resume "application/pdf" "cv.pdf" (PdfParse.ok [some "text"])
        (BackendOut.ok []) "id-5x" "t5" WriteOutcome.dumpFail []).status = 500 ∧
    (parse_resume "application/pdf" "cv.pdf" (PdfParse.ok [some "text"])
        (BackendOut.ok []) "id-5x" "t5" WriteOutcome.dumpFail []).body = none ∧
    (parse_resume "application/pdf" "cv.pdf" (PdfParse.ok [some "text"])
        (BackendOut.ok []) "id-5x" "t5" WriteOutcome.dumpFail []).store =
      [("id-5x", FileContent.corrupt)] ∧
    [("id-5x", FileContent.corrupt)] ≠ ([] : Store) ∧
    get_analysis_detail "id-5x"
      (parse_resume "application/pdf" "cv.pdf" (PdfParse.ok [some "text"])
        (BackendOut.ok []) "id-5x" "t5" WriteOutcome.dumpFail []).store =
      GetResult.internalError :=
  ⟨rfl, rfl, rfl, by simp, rfl⟩

/-- Claim C5, amended: POST /parse-resume never returns a partial record
(the body is none whenever the status is not 200), and a 200 outcome
returns a full record and persists exactly that record under the fresh
identifier; but the storage is only guaranteed unchanged on failures that
occur before the save file is opened. The one deviation: when json.dump
fails after open has truncated/created the file, a partial unparsable file
remains under the fresh identifier. On any failure the store is therefore
either unchanged or extended by exactly that one unparsable file, so a
parsable record is persisted exactly when the whole pipeline, including
the write, succeeds. -/
theorem c5_parse_resume_atomic (ct fname : String) (pdf : PdfParse) (backend : BackendOut)
    (newId ts : String) (write : WriteOutcome) (store : Store) :
    ((parse_resume ct fname pdf backend newId ts write store).status = 200 →
      ∃ r, parse_resume ct fname pdf backend newId ts write store =
        ⟨200, some r, storeWrite newId (FileContent.good r.toDict) store⟩) ∧
    ((parse_resume ct fname pdf backend newId ts write store).status ≠ 200 →
      (parse_resume ct fname pdf backend newId ts write store).body = none ∧
      ((parse_resume ct fname pdf backend newId ts write store).store = store ∨
        (parse_resume ct fname pdf backend newId ts write store).store =
          storeWrite newId FileContent.corrupt store)) := by
  by_cases hct : (ct != "application/pdf") = true
  · simp [parse_resume, hct]
  · cases pdf with
    | fail => simp [parse_resume, hct]
    | ok pages =>
      by_cases hb : isBlank (extractText pages) = true
      · simp [parse_resume, hct, hb]
      · cases backend with
        | fail => simp [parse_resume, hct, hb]
        | ok parsed =>
          by_cases hm : hasMetaKey parsed = true
          · simp [parse_resume, hct, hb, hm]
          · rcases hv : ArchivedResume.validate (metaKwargs newId fname ts ++ parsed)
              with _ | r0
            · simp [parse_resume, hct, hb, hm, hv]
            · cases write with
              | openFail => simp [parse_resume, hct, hb, hm, hv]
              | dumpFail => simp [parse_resume, hct, hb, hm, hv]
              | ok =>
                refine ⟨fun _ => ⟨r0, by simp [parse_resume, hct, hb, hm, hv]⟩,
                  fun hne => absurd (by simp [parse_resume, hct, hb, hm, hv]) hne⟩

theorem c5_parse_resume_atomic_witness :
    (∃ r, parse_resume "application/pdf" "cv.pdf" (PdfParse.ok [some "text"])
        (BackendOut.ok []) "id-5" "t5" WriteOutcome.ok [] =
        ⟨200, some r, storeWrite "id-5" (FileContent.good r.toDict) []⟩) ∧
    ((parse_resume "application/pdf" "cv.pdf" (PdfParse.ok [some "text"])
        (BackendOut.ok []) "id-5" "t5" WriteOutcome.dumpFail []).body = none ∧
     ((parse_resume "application/pdf" "cv.pdf" (PdfParse.ok [some "text"])
        (BackendOut.ok []) "id-5" "t5" WriteOutcome.dumpFail []).store = [] ∨
      (parse_resume "application/pdf" "cv.pdf" (PdfParse.ok [some "text"])
        (BackendOut.ok []) "id-5" "t5" WriteOutcome.dumpFail []).store =
        storeWrite "id-5" FileContent.corrupt [])) :=
  ⟨(c5_parse_resume_atomic "application/pdf" "cv.pdf" (PdfParse.ok [some "text"])
      (BackendOut.ok []) "id-5" "t5" WriteOutcome.ok []).1 rfl,
   (c5_parse_resume_atomic "application/pdf" "cv.pdf" (PdfParse.ok [some "text"])
      (BackendOut.ok []) "id-5" "t5" WriteOutcome.dumpFail []).2 (by decide)⟩

/-- Claim C6: for a readable PDF, the extraction step returns the
concatenation, in page order and with no separator, of the per-page
extracted texts, a page with no extractable text contributing the empty
string. -/
theorem c6_extract_concat (pages : List (Option String)) :
    extractText pages = String.join (pages.map fun p => p.getD "") := by
  simp [extractText, String.join, List.foldl_map]

/-- The backend stub mapping of the spec section 8 scenario: only name,
email and skills supplied. -/
def c7Stub : PyDict :=
  [("name", JsonVal.str "John Doe"), ("email", JsonVal.str "john@x.com"),
   ("skills", JsonVal.arr [JsonVal.str "Python", JsonVal.str "AWS"])]

/-- Claim C7: with a backend mapping that omits some ResumeData fields,
the created record keeps the supplied fields unchanged and fills every
absent scalar field with the sentinel and every absent list field with the
empty list: the section 8 stub yields phone = "Not specified",
experience = [], education = [], skills = ["Python", "AWS"]. -/
theorem c7_stub_defaults :
    ∃ r : ArchivedResume,
      (parse_resume "application/pdf" "john.pdf"
          (PdfParse.ok [some "John Doe, john@x.com, Python, AWS"])
          (BackendOut.ok c7Stub) "id-7" "t7" WriteOutcome.ok []).body = some r ∧
      r.phone = some "Not specified" ∧ r.experience = [] ∧ r.education = [] ∧
      r.skills = ["Python", "AWS"] ∧ r.name = some "John Doe" ∧
      r.email = some "john@x.com" ∧ r.summary = some "Not specified" :=
  ⟨{ name := some "John Doe", email := some "john@x.com", phone := some "Not specified",
     summary := some "Not specified", experience := [], education := [],
     skills := ["Python", "AWS"], id := "id-7", filename := "john.pdf", timestamp := "t7" },
   rfl, rfl, rfl, rfl, rfl, rfl, rfl, rfl⟩

/-- Claim C8: during listing, a stored file whose content fails to parse is
silently skipped: it contributes no entry and the history is exactly the
one computed from the remaining files. -/
theorem c8_corrupt_skipped (xs ys : Store) (n : String) :
    get_analyses_history (xs ++ (n, FileContent.corrupt) :: ys) =
      get_analyses_history (xs ++ ys) := by
  simp [get_analyses_history, rawStubs, List.filterMap_append, List.filterMap_cons]

theorem lookup_name_meta_append (newId fname ts : String) (parsed : PyDict) :
    List.lookup "name" (metaKwargs newId fname ts ++ parsed) =
      List.lookup "name" parsed := rfl

/-- Claim C9: sentinel defaults apply only to absent fields: if the
backend mapping binds "name" to an explicit null and a record is created,
the created record's name is None rather than the sentinel, and the
persisted JSON stores null for "name". -/
theorem c9_null_kept (fname newId ts : String) (write : WriteOutcome) (store : Store)
    (pdf : PdfParse) (parsed : PyDict) (r : ArchivedResume)
    (hname : List.lookup "name" parsed = some JsonVal.null)
    (h : (parse_resume "application/pdf" fname pdf (BackendOut.ok parsed)
            newId ts write store).body = some r) :
    r.name = none ∧ r.name ≠ some "Not specified" ∧
    List.lookup "name" r.toDict = some JsonVal.null := by
  obtain ⟨parsed2, hbk, hm, hv, heq⟩ :=
    parse_resume_success "application/pdf" fname pdf (BackendOut.ok parsed)
      newId ts write store r h
  injection hbk with hp
  subst hp
  have hn := (ArchivedResume.validate_fields _ _ hv).1
  have hcomp : optStrField (metaKwargs newId fname ts ++ parsed) "name" = some none := by
    simp [optStrField, lookup_name_meta_append, hname, parseOptStr]
  rw [hn] at hcomp
  have hrname : r.name = none := Option.some.inj hcomp
  refine ⟨hrname, by simp [hrname], ?_⟩
  simp [ArchivedResume.toDict, List.lookup, hrname, optStrJson]

/-- Concrete record created in the C9 witness run. -/
def c9wRecord : ArchivedResume :=
  { name := none, email := some "Not specified", phone := some "Not specified",
    summary := some "Not specified", experience := [], education := [], skills := [],
    id := "id-9", filename := "n.pdf", timestamp := "t9" }

theorem c9_null_kept_witness :
    c9wRecord.name = none ∧ c9wRecord.name ≠ some "Not specified" ∧
    List.lookup "name" c9wRecord.toDict = some JsonVal.null :=
  c9_null_kept "n.pdf" "id-9" "t9" WriteOutcome.ok [] (PdfParse.ok [some "x"])
    [("name", JsonVal.null)] c9wRecord rfl rfl

/-- Claim C10: if the backend mapping itself contains any of the keys
"id", "filename" or "timestamp", the ArchivedResume(...) call raises
TypeError (duplicate keyword argument), caught by the generic handler:
POST /parse-resume returns 500 with no body and the storage state is
unchanged. -/
theorem c10_duplicate_kwarg_500 (fname newId ts : String) (write : WriteOutcome) (store : Store)
    (pages : List (Option String)) (parsed : PyDict)
    (hnb : isBlank (extractText pages) = false)
    (hkey : hasMetaKey parsed = true) :
    parse_resume "application/pdf" fname (PdfParse.ok pages) (BackendOut.ok parsed)
      newId ts write store = ⟨500, none, store⟩ := by
  simp [parse_resume, hnb, hkey]

theorem c10_duplicate_kwarg_500_witness :
    parse_resume "application/pdf" "cv.pdf" (PdfParse.ok [some "text"])
      (BackendOut.ok [("id", JsonVal.str "boom")]) "id-10" "t10" WriteOutcome.ok [] =
      ⟨500, none, []⟩ :=
  c10_duplicate_kwarg_500 "cv.pdf" "id-10" "t10" WriteOutcome.ok [] [some "text"]
    [("id", JsonVal.str "boom")] rfl rfl

/-- Claim C4: GET /analyses returns its entries sorted by timestamp
descending; and for two stored records A and B where A's timestamp is
strictly smaller than B's (the timestamp is monotonic with processing
order under single-threaded operation, so a record created earlier carries
a smaller timestamp), A's stub appears after B's stub in the returned
list: both stubs are present and every position holding A's stub lies
beyond every position holding B's stub. -/
theorem c4_history_sorted (store : Store) (idA idB : String) (dA dB : PyDict)
    (hA : (idA, FileContent.good dA) ∈ store)
    (hB : (idB, FileContent.good dB) ∈ store)
    (hlt : strLt (tsKey (dictGet dA "timestamp")) (tsKey (dictGet dB "timestamp")) = true) :
    (get_analyses_history store).Pairwise (fun a b => stubDescLe a b = true) ∧
    stubOfDict dA ∈ get_analyses_history store ∧
    stubOfDict dB ∈ get_analyses_history store ∧
    ∀ i j : Fin (get_analyses_history store).length,
      (get_analyses_history store).get i = stubOfDict dA →
      (get_analyses_history store).get j = stubOfDict dB → j < i := by
  have hpw : (get_analyses_history store).Pairwise (fun a b => stubDescLe a b = true) :=
    List.sorted_mergeSort stubDescLe_trans stubDescLe_total (rawStubs store)
  have hperm := List.mergeSort_perm (rawStubs store) stubDescLe
  have hmemA : stubOfDict dA ∈ get_analyses_history store :=
    hperm.mem_iff.mpr (List.mem_filterMap.mpr ⟨(idA, FileContent.good dA), hA, rfl⟩)
  have hmemB : stubOfDict dB ∈ get_analyses_history store :=
    hperm.mem_iff.mpr (List.mem_filterMap.mpr ⟨(idB, FileContent.good dB), hB, rfl⟩)
  have hboth := hlt
  simp only [strLt, Bool.and_eq_true, Bool.not_eq_true'] at hboth
  obtain ⟨hle, hfalse⟩ := hboth
  refine ⟨hpw, hmemA, hmemB, ?_⟩
  intro i j hgi hgj
  rcases Nat.lt_trichotomy j.val i.val with hj | hj | hj
  · exact hj
  · exfalso
    have hij : i = j := Fin.ext hj.symm
    rw [hij, hgj] at hgi
    have hts : dictGet dB "timestamp" = dictGet dA "timestamp" := by
      have := congrArg AnalysisStub.timestamp hgi
      simpa [stubOfDict] using this
    rw [hts, strLe_refl] at hfalse
    simp at hfalse
  · exfalso
    have hp := List.pairwise_iff_get.mp hpw i j hj
    rw [hgi, hgj] at hp
    have hp2 : strLe (tsKey (dictGet dB "timestamp")) (tsKey (dictGet dA "timestamp"))
        = true := by simpa [stubDescLe, stubOfDict] using hp
    rw [hfalse] at hp2
    simp at hp2

/-- Earlier record of the C4 witness store. -/
def c4wDictA : PyDict :=
  [("id", JsonVal.str "a"), ("filename", JsonVal.str "a.pdf"),
   ("timestamp", JsonVal.str "2024-01-01T00:00:00+00:00")]

/-- Later record of the C4 witness store. -/
def c4wDictB : PyDict :=
  [("id", JsonVal.str "b"), ("filename", JsonVal.str "b.pdf"),
   ("timestamp", JsonVal.str "2024-01-02T00:00:00+00:00")]

/-- C4 witness store, earlier record enumerated first. -/
def c4wStore : Store :=
  [("a", FileContent.good c4wDictA), ("b", FileContent.good c4wDictB)]

theorem c4_history_sorted_witness :
    (get_analyses_history c4wStore).Pairwise (fun a b => stubDescLe a b = true) ∧
    stubOfDict c4wDictA ∈ get_analyses_history c4wStore ∧
    stubOfDict c4wDictB ∈ get_analyses_history c4wStore ∧
    ∀ i j : Fin (get_analyses_history c4wStore).length,
      (get_analyses_history c4wStore).get i = stubOfDict c4wDictA →
      (get_analyses_history c4wStore).get j = stubOfDict c4wDictB → j < i :=
  c4_history_sorted c4wStore "a" "b" c4wDictA c4wDictB
    (List.mem_cons_self _ _)
    (List.mem_cons_of_mem _ (List.mem_cons_self _ _))
    rfl
